import Mathlib

/-!
# Verification of the Kaiten webhook server (`webhooks.py`)

Shallow embedding of the webhook server:
* `JValue` models JSON-decoded Python values.
* `WebhookEvent.from_payload` models the normalization classmethod (lines 35-43).
  Python `dict.get` returns the stored value or the default; calling `.get` on a
  non-dict raises `AttributeError`, so normalization is fallible (`Except`).
* `WebhookProcessor` models the handler registry; `register_handler`,
  `register_global_handler` and `process_event` model the methods of the class
  (lines 46-88).  `process_event` evaluates `event.author.get('name', ...)` and
  the dict lookup `self._handlers.get(event.event, [])` outside any `try`, so it
  too is fallible; each handler invocation sits inside `try/except Exception`.
* `webhook_handler` models the ingestion endpoint (lines 113-132), including the
  `payload.get('event', 'unknown')` logging access performed before
  normalization and the 400/500 exception branches.

Time is passed explicitly (`now : Nat`) where the source calls `datetime.now()`.
Handlers are modelled by an identifier, the sync/async tag the dispatcher
branches on, and the outcome of invoking them on an event (`true` = returns,
`false` = raises an exception caught by the dispatcher's `except Exception`).
-/

set_option autoImplicit false

/-- JSON-decoded Python value (`json` module output): `None`, `bool`, number,
`str`, `list`, `dict` with string keys. -/
inductive JValue where
  | null
  | bool (b : Bool)
  | num (n : Int)
  | str (s : String)
  | arr (xs : List JValue)
  | obj (fields : List (String × JValue))

/-- First value stored under key `k`, if any (Python `k in d` / `d[k]`). -/
def getKey (fields : List (String × JValue)) (k : String) : Option JValue :=
  (fields.find? (fun p => p.1 == k)).map (fun p => p.2)

/-- Python `d.get(k, default)` on a dict `d`. -/
def dictGet (fields : List (String × JValue)) (k : String) (default : JValue) : JValue :=
  match getKey fields k with
  | some v => v
  | none => default

/-- A Python exception escaping a modelled operation. -/
inductive PyErr where
  | attributeError
  | typeErrorUnhashable

/-- The `WebhookEvent` dataclass (lines 27-43).  The source annotates `event`
as `str` and `author`/`data` as dicts, but `from_payload` performs no type
checks, so the fields hold arbitrary JSON values. -/
structure WebhookEvent where
  event : JValue
  author : JValue
  data : JValue
  timestamp : Nat

/-- `WebhookEvent.from_payload` (lines 35-43):
`event = payload.get('event', '')`,
`author = payload.get('data', {}).get('author', {})`,
`data = payload.get('data', {})`, `timestamp = datetime.now()`.
Raises `AttributeError` when `payload` is not a dict (first `.get`) or when
`payload['data']` exists and is not a dict (the `.get('author', ...)` call). -/
def WebhookEvent.from_payload (payload : JValue) (now : Nat) : Except PyErr WebhookEvent :=
  match payload with
  | .obj fields =>
    match dictGet fields "data" (.obj []) with
    | .obj dataFields =>
      .ok { event := dictGet fields "event" (.str "")
            author := dictGet dataFields "author" (.obj [])
            data := .obj dataFields
            timestamp := now }
    | _ => .error .attributeError
  | _ => .error .attributeError

/-- A registered handler: an identity (standing for the Python callable's
`__name__`), the coroutine-function tag `asyncio.iscoroutinefunction` branches
on, and the result of calling it on an event (`true` = completes normally,
`false` = raises an exception). -/
structure Handler where
  id : Nat
  isAsync : Bool
  run : WebhookEvent → Bool

/-- Lines 73-76: `if asyncio.iscoroutinefunction(handler): await handler(event)
else: handler(event)` — both branches invoke the handler with the event and
wait for it before moving on. -/
def invokeHandler (h : Handler) (e : WebhookEvent) : Bool :=
  if h.isAsync then h.run e else h.run e

/-- One handler invocation performed by `process_event`: which handler ran,
with which event, and whether it completed without raising. -/
structure Invocation where
  handlerId : Nat
  event : WebhookEvent
  ok : Bool

/-- The `WebhookProcessor` registry state (lines 49-51): `_handlers`, a dict
from event-type string to list of handlers (modelled as a total function that
is `[]` off the registered keys, matching `.get(k, [])`), and
`_global_handlers`. -/
structure WebhookProcessor where
  handlers : String → List Handler
  global_handlers : List Handler

/-- `WebhookProcessor.__init__`: both containers start empty. -/
def WebhookProcessor.init : WebhookProcessor :=
  { handlers := fun _ => [], global_handlers := [] }

/-- `WebhookProcessor.register_handler` (lines 53-58): create the list for
`event_type` if absent, then append `handler` to it. -/
def WebhookProcessor.register_handler (p : WebhookProcessor) (event_type : String)
    (handler : Handler) : WebhookProcessor :=
  { p with handlers := fun k => if k = event_type then p.handlers k ++ [handler] else p.handlers k }

/-- `WebhookProcessor.register_global_handler` (lines 60-63): append to
`_global_handlers`. -/
def WebhookProcessor.register_global_handler (p : WebhookProcessor)
    (handler : Handler) : WebhookProcessor :=
  { p with global_handlers := p.global_handlers ++ [handler] }

/-- The registry read `self._handlers.get(kind, [])` (line 70), the spec's
`handlersFor`. -/
def handlersFor (p : WebhookProcessor) (kind : String) : List Handler :=
  p.handlers kind

/-- Line 67 evaluates `event.author.get('name', 'Unknown')` before any
handler runs; on a non-dict `author` this raises `AttributeError` outside every
`try`. -/
def authorNameLookup (e : WebhookEvent) : Except PyErr JValue :=
  match e.author with
  | .obj fields => .ok (dictGet fields "name" (.str "Unknown"))
  | _ => .error .attributeError

/-- Line 70: `self._handlers.get(event.event, [])`.  The registered keys are all
strings; a non-string hashable key (number, bool, `None`) finds nothing and
yields the default `[]`, while an unhashable key (list, dict) raises
`TypeError`. -/
def lookupHandlers (p : WebhookProcessor) (key : JValue) : Except PyErr (List Handler) :=
  match key with
  | .str s => .ok (p.handlers s)
  | .arr _ => .error .typeErrorUnhashable
  | .obj _ => .error .typeErrorUnhashable
  | _ => .ok []

/-- One `for handler in handlers` loop of `process_event` (lines 71-78 and
81-88): invoke each handler in list order inside `try/except Exception`, so an
exception is logged and the loop continues.  The registry is threaded through
the loop; the loop body never writes to it. -/
def runHandlerList (hs : List Handler) (e : WebhookEvent) (p : WebhookProcessor) :
    List Invocation × WebhookProcessor :=
  match hs with
  | [] => ([], p)
  | h :: rest =>
    let inv : Invocation := { handlerId := h.id, event := e, ok := invokeHandler h e }
    let r := runHandlerList rest e p
    (inv :: r.1, r.2)

/-- `WebhookProcessor.process_event` (lines 65-88): log (evaluating
`event.author.get('name', 'Unknown')`), look up the keyed handlers with
`self._handlers.get(event.event, [])`, run them in order, then run
`self._global_handlers` in order, every invocation wrapped in
`try/except Exception`.  Returns the invocation trace (or the escaping
exception) together with the registry state after the call. -/
def WebhookProcessor.process_event (p : WebhookProcessor) (e : WebhookEvent) :
    Except PyErr (List Invocation) × WebhookProcessor :=
  match authorNameLookup e with
  | .error err => (.error err, p)
  | .ok _ =>
    match lookupHandlers p e.event with
    | .error err => (.error err, p)
    | .ok hs =>
      let r1 := runHandlerList hs e p
      let r2 := runHandlerList r1.2.global_handlers e r1.2
      (.ok (r1.1 ++ r2.1), r2.2)

/-- Request body of the ingestion endpoint, as seen after `request.json()`:
either the decode fails (`json.JSONDecodeError`) or it yields a JSON value. -/
inductive Body where
  | invalid
  | decoded (payload : JValue)

/-- HTTP response of the ingestion endpoint: status code and the `message` /
`detail` string of the JSON body. -/
structure HttpResponse where
  status : Nat
  body : String

/-- Line 117 evaluates `payload.get('event', 'unknown')` for logging before
normalization; on a non-dict payload this raises `AttributeError`, caught by
the endpoint's generic `except Exception`. -/
def payloadEventLookup (payload : JValue) : Except PyErr JValue :=
  match payload with
  | .obj fields => .ok (dictGet fields "event" (.str "unknown"))
  | _ => .error .attributeError

/-- The ingestion endpoint `webhook_handler` (lines 113-132):
`except json.JSONDecodeError` answers 400 `"Invalid JSON"`; any other exception
(logging access or `from_payload` on ill-typed payloads) answers 500
`"Internal server error"`; otherwise the event is handed to
`background_tasks.add_task(self.processor.process_event, event)` and the
endpoint answers 200 `"Webhook processed successfully"`.  The second component
is the list of dispatch tasks scheduled to run after the response. -/
def webhook_handler (b : Body) (now : Nat) : HttpResponse × List WebhookEvent :=
  match b with
  | .invalid => ({ status := 400, body := "Invalid JSON" }, [])
  | .decoded payload =>
    match payloadEventLookup payload with
    | .error _ => ({ status := 500, body := "Internal server error" }, [])
    | .ok _ =>
      match WebhookEvent.from_payload payload now with
      | .error _ => ({ status := 500, body := "Internal server error" }, [])
      | .ok ev => ({ status := 200, body := "Webhook processed successfully" }, [ev])

/-- Running the scheduled background tasks: each one is
`process_event` applied to the stored event (line 120). -/
def runBackground (p : WebhookProcessor) (tasks : List WebhookEvent) :
    List (Except PyErr (List Invocation)) :=
  tasks.map (fun e => (p.process_event e).1)

/-! ## Helper definitions and lemmas -/

/-- The invocation record produced for handler `h` on event `e`. -/
def mkInvocation (e : WebhookEvent) (h : Handler) : Invocation :=
  { handlerId := h.id, event := e, ok := invokeHandler h e }

/-- Does the payload's `data` member (defaulting to `{}`) hold a dict?  Exactly
when it does, `payload.get('data', {}).get('author', {})` cannot raise. -/
def dataIsMapping (fields : List (String × JValue)) : Bool :=
  match dictGet fields "data" (.obj []) with
  | .obj _ => true
  | _ => false

/-- Does the payload's `data` member hold a dict whose `author` member
(defaulting to `{}`) is itself a dict?  Exactly then the normalized event's
`author` is a dict, which is what line 67 of `process_event` needs. -/
def authorIsMapping (fields : List (String × JValue)) : Bool :=
  match dictGet fields "data" (.obj []) with
  | .obj dfs =>
    match dictGet dfs "author" (.obj []) with
    | .obj _ => true
    | _ => false
  | _ => false

/-- Is the JSON value a dict?  Python `.get` raises `AttributeError` on every
other JSON value. -/
def isMapping (v : JValue) : Bool :=
  match v with
  | .obj _ => true
  | _ => false

theorem runHandlerList_fst (hs : List Handler) (e : WebhookEvent) (p : WebhookProcessor) :
    (runHandlerList hs e p).1 = hs.map (mkInvocation e) := by
  induction hs with
  | nil => rfl
  | cons h rest ih => simp [runHandlerList, mkInvocation, ih]

theorem runHandlerList_snd (hs : List Handler) (e : WebhookEvent) (p : WebhookProcessor) :
    (runHandlerList hs e p).2 = p := by
  induction hs with
  | nil => rfl
  | cons h rest ih => simp [runHandlerList, ih]

/-- `process_event` on an event whose `author` is a dict and whose `event`
field is a string: the keyed handlers for that string run in order, then the
global handlers, and the registry comes back unchanged. -/
theorem process_event_ok (p : WebhookProcessor) (e : WebhookEvent)
    (a : List (String × JValue)) (s : String)
    (hA : e.author = JValue.obj a) (hK : e.event = JValue.str s) :
    p.process_event e =
      (Except.ok ((p.handlers s).map (mkInvocation e) ++ p.global_handlers.map (mkInvocation e)), p) := by
  simp [WebhookProcessor.process_event, authorNameLookup, hA, hK, lookupHandlers,
    runHandlerList_fst, runHandlerList_snd]

/-- `process_event` never writes to the registry. -/
theorem process_event_registry (p : WebhookProcessor) (e : WebhookEvent) :
    (p.process_event e).2 = p := by
  unfold WebhookProcessor.process_event
  cases authorNameLookup e with
  | error err => rfl
  | ok v =>
    cases lookupHandlers p e.event with
    | error err => rfl
    | ok hs => simp [runHandlerList_snd]

/-- `from_payload` when the payload's `data` member (defaulting to `{}`) is the
dict `dfs`. -/
theorem from_payload_data_obj (fields dfs : List (String × JValue)) (now : Nat)
    (hd : dictGet fields "data" (JValue.obj []) = JValue.obj dfs) :
    WebhookEvent.from_payload (JValue.obj fields) now =
      Except.ok { event := dictGet fields "event" (JValue.str "")
                  author := dictGet dfs "author" (JValue.obj [])
                  data := JValue.obj dfs
                  timestamp := now } := by
  simp [WebhookEvent.from_payload, hd]

theorem dataIsMapping_iff (fields : List (String × JValue)) :
    dataIsMapping fields = true ↔ ∃ dfs, dictGet fields "data" (JValue.obj []) = JValue.obj dfs := by
  unfold dataIsMapping
  cases h : dictGet fields "data" (JValue.obj []) <;> simp

/-! ## Claim theorems -/

/-- C1: for every registry state and every event of the data model (string
kind, dict author), `process_event` invokes exactly the handlers registered for
the event's kind, in registration order, one at a time (the trace is the
sequential list of invocations), and only after all of them the global
handlers, in registration order: the trace is the keyed handlers' invocations
followed by the global handlers' invocations. -/
theorem dispatch_order_keyed_then_global (p : WebhookProcessor) (e : WebhookEvent)
    (a : List (String × JValue)) (s : String)
    (hA : e.author = JValue.obj a) (hK : e.event = JValue.str s) :
    (p.process_event e).1 =
      Except.ok ((handlersFor p s).map (mkInvocation e) ++
        p.global_handlers.map (mkInvocation e)) := by
  rw [process_event_ok p e a s hA hK]
  rfl

/-- Witness for C1: two handlers registered for `"card_moved"` in order, then a
global handler; dispatching a `"card_moved"` event invokes handler 1, then
handler 2, then the global handler 3. -/
theorem dispatch_order_keyed_then_global_witness :
    ((((WebhookProcessor.init.register_handler "card_moved" ⟨1, false, fun _ => true⟩).register_handler
        "card_moved" ⟨2, true, fun _ => true⟩).register_global_handler
        ⟨3, false, fun _ => true⟩).process_event
      { event := JValue.str "card_moved", author := JValue.obj [], data := JValue.obj [], timestamp := 0 }).1 =
    Except.ok
      [⟨1, { event := JValue.str "card_moved", author := JValue.obj [], data := JValue.obj [], timestamp := 0 }, true⟩,
       ⟨2, { event := JValue.str "card_moved", author := JValue.obj [], data := JValue.obj [], timestamp := 0 }, true⟩,
       ⟨3, { event := JValue.str "card_moved", author := JValue.obj [], data := JValue.obj [], timestamp := 0 }, true⟩] := by
  rw [dispatch_order_keyed_then_global _ _ [] "card_moved" rfl rfl]
  rfl

/-- C2: for every registry state — in particular whatever the outcome of each
handler, so also when some handler raises — and every event of the data model,
every handler in the dispatch sequence (keyed then global) is invoked with that
same event, in order: projecting the trace to (handler, event) pairs yields
exactly the full registered sequence paired with the event, independently of
any failure recorded in the trace. -/
theorem handler_failure_isolation (p : WebhookProcessor) (e : WebhookEvent)
    (a : List (String × JValue)) (s : String)
    (hA : e.author = JValue.obj a) (hK : e.event = JValue.str s) :
    (p.process_event e).1.map (fun t => t.map (fun i => (i.handlerId, i.event))) =
      Except.ok ((handlersFor p s ++ p.global_handlers).map (fun h => (h.id, e))) := by
  rw [process_event_ok p e a s hA hK]
  simp [Except.map, handlersFor, List.map_map, Function.comp_def, mkInvocation]

/-- Witness for C2: handler 1 (registered for `"x"`) raises, yet handler 2
(same kind) and global handler 3 are still invoked with the same event, in
order. -/
theorem handler_failure_isolation_witness :
    (((((WebhookProcessor.init.register_handler "x" ⟨1, false, fun _ => false⟩).register_handler
        "x" ⟨2, false, fun _ => true⟩).register_global_handler
        ⟨3, false, fun _ => true⟩).process_event
      { event := JValue.str "x", author := JValue.obj [], data := JValue.obj [], timestamp := 0 }).1.map
        (fun t => t.map (fun i => (i.handlerId, i.event)))) =
    Except.ok
      [(1, { event := JValue.str "x", author := JValue.obj [], data := JValue.obj [], timestamp := 0 }),
       (2, { event := JValue.str "x", author := JValue.obj [], data := JValue.obj [], timestamp := 0 }),
       (3, { event := JValue.str "x", author := JValue.obj [], data := JValue.obj [], timestamp := 0 })] := by
  rw [handler_failure_isolation _ _ [] "x" rfl rfl]
  rfl

/-- C3: for every registry state — regardless of which handlers raise when
invoked — and every event of the data model, `process_event` returns a trace
and never an escaping exception: every handler failure is absorbed inside the
dispatch call. -/
theorem dispatch_never_fails_outward (p : WebhookProcessor) (e : WebhookEvent)
    (a : List (String × JValue)) (s : String)
    (hA : e.author = JValue.obj a) (hK : e.event = JValue.str s) :
    ∃ t, (p.process_event e).1 = Except.ok t := by
  rw [process_event_ok p e a s hA hK]
  exact ⟨_, rfl⟩

/-- Witness for C3: every registered handler raises (a keyed one and a global
one), and dispatch still returns a trace rather than failing. -/
theorem dispatch_never_fails_outward_witness :
    ∃ t, (((WebhookProcessor.init.register_handler "x" ⟨1, false, fun _ => false⟩).register_global_handler
        ⟨2, true, fun _ => false⟩).process_event
      { event := JValue.str "x", author := JValue.obj [], data := JValue.obj [], timestamp := 0 }).1 =
      Except.ok t :=
  dispatch_never_fails_outward _ _ [] "x" rfl rfl

/-- C4 counterexample: the payload `{"data": 5}` is a JSON mapping, yet
`from_payload` raises (`payload.get('data', {}).get('author', {})` calls
`.get` on the int `5`), refuting "normalization succeeds ... without raising
any error" for every mapping payload. -/
theorem normalization_raises_on_nonmapping_data :
    WebhookEvent.from_payload (JValue.obj [("data", JValue.num 5)]) 0 =
      Except.error PyErr.attributeError := rfl

/-- C4 amended: normalization of a JSON-mapping payload succeeds (returning an
Event, with missing fields degraded to empty defaults) exactly when the
payload's `"data"` entry is absent or is itself a mapping; when `"data"` is
present with a non-mapping value, normalization raises `AttributeError`. -/
theorem normalization_total_iff_data_mapping (fields : List (String × JValue)) (now : Nat) :
    (∃ ev, WebhookEvent.from_payload (JValue.obj fields) now = Except.ok ev) ↔
      dataIsMapping fields = true := by
  unfold WebhookEvent.from_payload dataIsMapping
  cases h : dictGet fields "data" (JValue.obj []) <;> simp [h]

/-- C5 counterexample: for the payload `{"event": 5}` the `"event"` key is
present with a non-string value, and the returned Event keeps the number `5`
as its kind instead of the empty string the claim requires (`payload.get`
performs no type check). -/
theorem normalization_kind_not_typechecked :
    WebhookEvent.from_payload (JValue.obj [("event", JValue.num 5)]) 0 =
      Except.ok { event := JValue.num 5, author := JValue.obj [], data := JValue.obj [],
                  timestamp := 0 } ∧
    JValue.num 5 ≠ JValue.str "" :=
  ⟨rfl, fun h => JValue.noConfusion h⟩

/-- C5 amended: whenever normalization returns an Event, its kind is the
payload's `"event"` value if the key is present — whatever its type — else the
empty string; its data is the payload's `"data"` value if present else the
empty mapping; and its author is the data mapping's `"author"` value if
present — whatever its type — else the empty mapping.  (No type check is
applied to `"event"` or `"author"`; a present non-mapping `"data"` makes
normalization raise instead of degrading.) -/
theorem normalization_field_equations (fields : List (String × JValue)) (now : Nat)
    (ev : WebhookEvent)
    (h : WebhookEvent.from_payload (JValue.obj fields) now = Except.ok ev) :
    ev.event = dictGet fields "event" (JValue.str "") ∧
    ev.data = dictGet fields "data" (JValue.obj []) ∧
    ∀ dfs, ev.data = JValue.obj dfs → ev.author = dictGet dfs "author" (JValue.obj []) := by
  cases hd : dictGet fields "data" (JValue.obj []) with
  | obj dfs =>
    rw [from_payload_data_obj fields dfs now hd] at h
    injection h with h2
    subst h2
    refine ⟨rfl, rfl, fun dfs2 hdd => ?_⟩
    have h3 : JValue.obj dfs = JValue.obj dfs2 := hdd
    injection h3 with h4
    subst h4
    rfl
  | null => simp [WebhookEvent.from_payload, hd] at h
  | bool b => simp [WebhookEvent.from_payload, hd] at h
  | num n => simp [WebhookEvent.from_payload, hd] at h
  | str s2 => simp [WebhookEvent.from_payload, hd] at h
  | arr xs => simp [WebhookEvent.from_payload, hd] at h

/-- Witness for the amended C5 on the spec's own scenario payload
`{"event": "comment_added", "data": {"author": {"name": "Alice"}, "text": "hi"}}`. -/
theorem normalization_field_equations_witness :
    ({ event := JValue.str "comment_added",
       author := JValue.obj [("name", JValue.str "Alice")],
       data := JValue.obj [("author", JValue.obj [("name", JValue.str "Alice")]),
                           ("text", JValue.str "hi")],
       timestamp := 7 } : WebhookEvent).event =
      dictGet [("event", JValue.str "comment_added"),
               ("data", JValue.obj [("author", JValue.obj [("name", JValue.str "Alice")]),
                                    ("text", JValue.str "hi")])] "event" (JValue.str "") ∧
    ({ event := JValue.str "comment_added",
       author := JValue.obj [("name", JValue.str "Alice")],
       data := JValue.obj [("author", JValue.obj [("name", JValue.str "Alice")]),
                           ("text", JValue.str "hi")],
       timestamp := 7 } : WebhookEvent).data =
      dictGet [("event", JValue.str "comment_added"),
               ("data", JValue.obj [("author", JValue.obj [("name", JValue.str "Alice")]),
                                    ("text", JValue.str "hi")])] "data" (JValue.obj []) ∧
    ∀ dfs,
      ({ event := JValue.str "comment_added",
         author := JValue.obj [("name", JValue.str "Alice")],
         data := JValue.obj [("author", JValue.obj [("name", JValue.str "Alice")]),
                             ("text", JValue.str "hi")],
         timestamp := 7 } : WebhookEvent).data = JValue.obj dfs →
        ({ event := JValue.str "comment_added",
           author := JValue.obj [("name", JValue.str "Alice")],
           data := JValue.obj [("author", JValue.obj [("name", JValue.str "Alice")]),
                               ("text", JValue.str "hi")],
           timestamp := 7 } : WebhookEvent).author = dictGet dfs "author" (JValue.obj []) :=
  normalization_field_equations
    [("event", JValue.str "comment_added"),
     ("data", JValue.obj [("author", JValue.obj [("name", JValue.str "Alice")]),
                          ("text", JValue.str "hi")])] 7 _ rfl

/-- C6 counterexample: two valid JSON payloads without an `"event"` member for
which the claim fails.  First, `{}` dispatched against a registry holding a
handler registered for the kind `""`: the normalized event has kind `""` and
dispatch invokes that keyed handler, refuting "no keyed handler is invoked".
Second, `{"data": {"author": 5}}` normalizes to kind `""` but with the non-dict
author `5`, so dispatch raises at `event.author.get('name', 'Unknown')` and the
registered global handler is never invoked. -/
theorem empty_kind_not_only_globals :
    (WebhookEvent.from_payload (JValue.obj []) 0 =
       Except.ok { event := JValue.str "", author := JValue.obj [], data := JValue.obj [],
                   timestamp := 0 } ∧
     ((WebhookProcessor.init.register_handler "" ⟨1, false, fun _ => true⟩).process_event
        { event := JValue.str "", author := JValue.obj [], data := JValue.obj [],
          timestamp := 0 }).1 =
       Except.ok [⟨1, { event := JValue.str "", author := JValue.obj [], data := JValue.obj [],
                        timestamp := 0 }, true⟩]) ∧
    (WebhookEvent.from_payload (JValue.obj [("data", JValue.obj [("author", JValue.num 5)])]) 0 =
       Except.ok { event := JValue.str "", author := JValue.num 5,
                   data := JValue.obj [("author", JValue.num 5)], timestamp := 0 } ∧
     ((WebhookProcessor.init.register_global_handler ⟨7, false, fun _ => true⟩).process_event
        { event := JValue.str "", author := JValue.num 5,
          data := JValue.obj [("author", JValue.num 5)], timestamp := 0 }).1 =
       Except.error PyErr.attributeError) :=
  ⟨⟨rfl, rfl⟩, ⟨rfl, rfl⟩⟩

/-- C6 amended: for every JSON-mapping payload without an `"event"` member
whose `"data"` member (if present) is a mapping whose `"author"` member (if
present) is itself a mapping, normalization succeeds with kind `""`, and
dispatching the event invokes exactly the handlers registered for the kind
`""` followed by the global handlers; in particular, when no handler is
registered for `""`, exactly the global handlers. -/
theorem empty_kind_dispatch (p : WebhookProcessor) (fields : List (String × JValue)) (now : Nat)
    (hNoEvent : getKey fields "event" = none)
    (hAuthor : authorIsMapping fields = true) :
    ∃ ev, WebhookEvent.from_payload (JValue.obj fields) now = Except.ok ev ∧
      ev.event = JValue.str "" ∧
      (p.process_event ev).1 =
        Except.ok ((handlersFor p "" ++ p.global_handlers).map (mkInvocation ev)) ∧
      (handlersFor p "" = [] →
        (p.process_event ev).1 = Except.ok (p.global_handlers.map (mkInvocation ev))) := by
  cases hd : dictGet fields "data" (JValue.obj []) with
  | obj dfs =>
    cases ha : dictGet dfs "author" (JValue.obj []) with
    | obj afs =>
      have hEv : dictGet fields "event" (JValue.str "") = JValue.str "" := by
        unfold dictGet
        rw [hNoEvent]
      refine ⟨{ event := dictGet fields "event" (JValue.str ""),
                author := dictGet dfs "author" (JValue.obj []),
                data := JValue.obj dfs, timestamp := now },
              from_payload_data_obj fields dfs now hd, hEv, ?_, ?_⟩
      · rw [process_event_ok p _ afs "" ha hEv]
        simp [handlersFor]
      · intro hEmpty
        rw [process_event_ok p _ afs "" ha hEv]
        have hpe : p.handlers "" = [] := hEmpty
        simp [hpe]
    | null => unfold authorIsMapping at hAuthor; simp [hd, ha] at hAuthor
    | bool b => unfold authorIsMapping at hAuthor; simp [hd, ha] at hAuthor
    | num n => unfold authorIsMapping at hAuthor; simp [hd, ha] at hAuthor
    | str s2 => unfold authorIsMapping at hAuthor; simp [hd, ha] at hAuthor
    | arr xs => unfold authorIsMapping at hAuthor; simp [hd, ha] at hAuthor
  | null => unfold authorIsMapping at hAuthor; simp [hd] at hAuthor
  | bool b => unfold authorIsMapping at hAuthor; simp [hd] at hAuthor
  | num n => unfold authorIsMapping at hAuthor; simp [hd] at hAuthor
  | str s2 => unfold authorIsMapping at hAuthor; simp [hd] at hAuthor
  | arr xs => unfold authorIsMapping at hAuthor; simp [hd] at hAuthor

/-- Witness for the amended C6: payload `{}` against a registry with a handler
for kind `"x"` and one global handler. -/
theorem empty_kind_dispatch_witness :
    ∃ ev, WebhookEvent.from_payload (JValue.obj []) 3 = Except.ok ev ∧
      ev.event = JValue.str "" ∧
      (((WebhookProcessor.init.register_handler "x" ⟨1, false, fun _ => true⟩).register_global_handler
          ⟨2, false, fun _ => true⟩).process_event ev).1 =
        Except.ok ((handlersFor
            ((WebhookProcessor.init.register_handler "x" ⟨1, false, fun _ => true⟩).register_global_handler
              ⟨2, false, fun _ => true⟩) "" ++
          ((WebhookProcessor.init.register_handler "x" ⟨1, false, fun _ => true⟩).register_global_handler
            ⟨2, false, fun _ => true⟩).global_handlers).map (mkInvocation ev)) ∧
      (handlersFor
          ((WebhookProcessor.init.register_handler "x" ⟨1, false, fun _ => true⟩).register_global_handler
            ⟨2, false, fun _ => true⟩) "" = [] →
        (((WebhookProcessor.init.register_handler "x" ⟨1, false, fun _ => true⟩).register_global_handler
            ⟨2, false, fun _ => true⟩).process_event ev).1 =
          Except.ok
            (((WebhookProcessor.init.register_handler "x" ⟨1, false, fun _ => true⟩).register_global_handler
              ⟨2, false, fun _ => true⟩).global_handlers.map (mkInvocation ev))) :=
  empty_kind_dispatch _ [] 3 rfl rfl

/-- C7 counterexample: the body `5` is valid JSON, so it decodes successfully,
yet the endpoint answers 500 `"Internal server error"` (the logging access
`payload.get('event', 'unknown')` raises on a non-dict payload and the generic
`except Exception` turns it into a 500), not the claimed 200. -/
theorem decoded_body_not_always_200 :
    (webhook_handler (Body.decoded (JValue.num 5)) 0).1.status = 500 ∧
    ¬ (webhook_handler (Body.decoded (JValue.num 5)) 0).1.status = 200 ∧
    (webhook_handler (Body.decoded (JValue.num 5)) 0).1.body = "Internal server error" :=
  ⟨rfl, by decide, rfl⟩

/-- C7 amended: a body that is not valid JSON gets status 400 with detail
`"Invalid JSON"`, no dispatch task is scheduled and zero handlers are invoked;
a body that decodes to a JSON mapping whose `"data"` member (if present) is a
mapping gets status 200 with message `"Webhook processed successfully"`; every
other successfully decoded body (a non-mapping JSON value, or a mapping whose
`"data"` member is present and not a mapping) makes normalization — or the
logging access before it — raise, and the endpoint answers 500
`"Internal server error"`. -/
theorem ingestion_endpoint_responses (p : WebhookProcessor) (now : Nat)
    (payload : JValue) (fields : List (String × JValue)) :
    webhook_handler Body.invalid now = ({ status := 400, body := "Invalid JSON" }, []) ∧
    runBackground p (webhook_handler Body.invalid now).2 = [] ∧
    (dataIsMapping fields = true →
      (webhook_handler (Body.decoded (JValue.obj fields)) now).1 =
        { status := 200, body := "Webhook processed successfully" }) ∧
    (dataIsMapping fields = false →
      (webhook_handler (Body.decoded (JValue.obj fields)) now).1 =
        { status := 500, body := "Internal server error" }) ∧
    (isMapping payload = false →
      (webhook_handler (Body.decoded payload) now).1 =
        { status := 500, body := "Internal server error" }) := by
  refine ⟨rfl, rfl, ?_, ?_, ?_⟩
  · intro hData
    rcases (dataIsMapping_iff fields).mp hData with ⟨dfs, hd⟩
    simp [webhook_handler, payloadEventLookup, from_payload_data_obj fields dfs now hd]
  · intro hData
    cases hd : dictGet fields "data" (JValue.obj []) with
    | obj dfs =>
      exfalso
      unfold dataIsMapping at hData
      simp [hd] at hData
    | null => simp [webhook_handler, payloadEventLookup, WebhookEvent.from_payload, hd]
    | bool b => simp [webhook_handler, payloadEventLookup, WebhookEvent.from_payload, hd]
    | num n => simp [webhook_handler, payloadEventLookup, WebhookEvent.from_payload, hd]
    | str s2 => simp [webhook_handler, payloadEventLookup, WebhookEvent.from_payload, hd]
    | arr xs => simp [webhook_handler, payloadEventLookup, WebhookEvent.from_payload, hd]
  · intro hNotObj
    cases payload with
    | obj fields2 => simp [isMapping] at hNotObj
    | null => rfl
    | bool b => rfl
    | num n => rfl
    | str s2 => rfl
    | arr xs => rfl

/-- Witness for the amended C7: the body `{"event": "card_moved"}` gets 200,
the body `"oops"` (valid JSON, not a mapping) gets 500, and an invalid body
gets 400 with no scheduled dispatch. -/
theorem ingestion_endpoint_responses_witness :
    webhook_handler Body.invalid 0 = ({ status := 400, body := "Invalid JSON" }, []) ∧
    runBackground WebhookProcessor.init (webhook_handler Body.invalid 0).2 = [] ∧
    (webhook_handler (Body.decoded (JValue.obj [("event", JValue.str "card_moved")])) 0).1 =
      { status := 200, body := "Webhook processed successfully" } ∧
    (webhook_handler (Body.decoded (JValue.str "oops")) 0).1 =
      { status := 500, body := "Internal server error" } := by
  have h := ingestion_endpoint_responses WebhookProcessor.init 0 (JValue.str "oops")
    [("event", JValue.str "card_moved")]
  exact ⟨h.1, h.2.1, h.2.2.1 rfl, h.2.2.2.2 rfl⟩

/-- C8: `register_handler` appends the handler at the end of the ordered
sequence for the given kind — any kind, the empty string included — and it is a
total operation (never raises); afterwards `handlersFor` returns the updated
sequence with insertion order preserved and duplicates allowed (registering
the same handler twice yields it twice), and `handlersFor` returns the empty
sequence for every kind on the empty registry.  `handlersFor` is a pure read
of the registry state. -/
theorem registration_append_semantics (p : WebhookProcessor) (k k2 : String) (h : Handler) :
    handlersFor (p.register_handler k h) k = handlersFor p k ++ [h] ∧
    handlersFor ((p.register_handler k h).register_handler k h) k =
      handlersFor p k ++ [h, h] ∧
    handlersFor WebhookProcessor.init k2 = [] := by
  refine ⟨?_, ?_, rfl⟩ <;>
    simp [handlersFor, WebhookProcessor.register_handler]

/-- C9: whenever normalization returns an Event, its timestamp is the clock
value read at normalization time (`datetime.now()`), whatever the payload: no
payload field contributes to it. -/
theorem timestamp_from_server_clock (payload : JValue) (now : Nat) (ev : WebhookEvent)
    (h : WebhookEvent.from_payload payload now = Except.ok ev) :
    ev.timestamp = now := by
  cases payload with
  | obj fields =>
    cases hd : dictGet fields "data" (JValue.obj []) with
    | obj dfs =>
      rw [from_payload_data_obj fields dfs now hd] at h
      injection h with h2
      subst h2
      rfl
    | null => simp [WebhookEvent.from_payload, hd] at h
    | bool b => simp [WebhookEvent.from_payload, hd] at h
    | num n => simp [WebhookEvent.from_payload, hd] at h
    | str s2 => simp [WebhookEvent.from_payload, hd] at h
    | arr xs => simp [WebhookEvent.from_payload, hd] at h
  | null => simp [WebhookEvent.from_payload] at h
  | bool b => simp [WebhookEvent.from_payload] at h
  | num n => simp [WebhookEvent.from_payload] at h
  | str s2 => simp [WebhookEvent.from_payload] at h
  | arr xs => simp [WebhookEvent.from_payload] at h

/-- Witness for C9: the payload carries a `"timestamp"` member with value 999,
yet the normalized event's timestamp is the server clock value 7. -/
theorem timestamp_from_server_clock_witness :
    ({ event := JValue.str "", author := JValue.obj [],
       data := JValue.obj [], timestamp := 7 } : WebhookEvent).timestamp = 7 :=
  timestamp_from_server_clock (JValue.obj [("timestamp", JValue.num 999)]) 7 _ rfl

/-- C10: registering a handler for a kind leaves every other kind's sequence
and the global sequence unchanged; registering a global handler leaves every
keyed sequence unchanged; and `process_event` leaves the entire registry state
unchanged. -/
theorem registration_dispatch_frame (p : WebhookProcessor) (k k2 : String)
    (h hg : Handler) (e : WebhookEvent) :
    (k2 ≠ k → handlersFor (p.register_handler k h) k2 = handlersFor p k2) ∧
    (p.register_handler k h).global_handlers = p.global_handlers ∧
    (∀ k3, handlersFor (p.register_global_handler hg) k3 = handlersFor p k3) ∧
    (p.process_event e).2 = p := by
  refine ⟨?_, rfl, fun k3 => rfl, process_event_registry p e⟩
  intro hne
  simp [handlersFor, WebhookProcessor.register_handler, hne]

/-- Witness for C10: registering for kind `"a"` leaves kind `"b"` and the
global sequence unchanged, registering a global handler leaves kind `"b"`
unchanged, and dispatching an event leaves the registry unchanged. -/
theorem registration_dispatch_frame_witness :
    handlersFor (WebhookProcessor.init.register_handler "a" ⟨1, false, fun _ => true⟩) "b" =
      handlersFor WebhookProcessor.init "b" ∧
    (WebhookProcessor.init.register_handler "a" ⟨1, false, fun _ => true⟩).global_handlers =
      WebhookProcessor.init.global_handlers ∧
    (WebhookProcessor.init.process_event
      { event := JValue.str "a", author := JValue.obj [], data := JValue.obj [],
        timestamp := 0 }).2 = WebhookProcessor.init := by
  have h := registration_dispatch_frame WebhookProcessor.init "a" "b"
    ⟨1, false, fun _ => true⟩ ⟨2, false, fun _ => true⟩
    { event := JValue.str "a", author := JValue.obj [], data := JValue.obj [], timestamp := 0 }
  exact ⟨h.1 (by decide), h.2.1, h.2.2.2⟩
